import Mathlib

/-!
Verification development for the `eventsource` SSE broker.

The coordinator (`run` in server.go) is embedded as an explicit state machine
processing commands one at a time; per-subscription queues are embedded as Go
buffered channels (a bounded buffer plus a closed flag) with Go's semantics for
send, select-send-with-default, and close.  Events are modelled as natural
numbers; channel names as strings.
-/

/-- A Go buffered channel of events (`out chan Event` in `subscription`,
server.go:14): a FIFO buffer with a fixed capacity and a closed flag. -/
structure OutChan where
  buf : List Nat
  cap : Nat
  closed : Bool
deriving Repr, DecidableEq

/-- Outcome of a blocking Go channel send `ch <- v`: it panics if the channel
is closed, blocks (forever, if no one ever receives) if the buffer is full,
and otherwise enqueues the value. -/
inductive SendResult where
  | sent (q : OutChan)
  | blocked
  | panicked
deriving Repr, DecidableEq

/-- The blocking send `sub.out <- ev` performed by `replay`
(server.go:207), with Go channel-send semantics. -/
def chanSend (q : OutChan) (ev : Nat) : SendResult :=
  if q.closed then .panicked
  else if q.buf.length < q.cap then .sent { q with buf := q.buf ++ [ev] }
  else .blocked

/-- Outcome of the publish-side `select { case s.out <- pub.event: default: }`
(server.go:225-231) on one subscriber queue: a send on a closed channel is a
ready case and panics when chosen; a full open channel makes the send not
ready, so the `default` branch (eviction) runs; otherwise the event is
enqueued. -/
inductive PubAttempt where
  | delivered (q : OutChan)
  | evict
  | panicked
deriving Repr, DecidableEq

/-- The per-subscriber delivery attempt in `run`'s publish case
(server.go:225-231). -/
def publishAttempt (q : OutChan) (ev : Nat) : PubAttempt :=
  if q.closed then .panicked
  else if q.buf.length < q.cap then .delivered { q with buf := q.buf ++ [ev] }
  else .evict

/-- Outcome of a whole `replay` task (server.go:205-209): it iterates the
repository's event sequence, doing a blocking send for each event. -/
inductive ReplayOutcome where
  | finished (q : OutChan)
  | blockedAt (ev : Nat)
  | panicked
deriving Repr, DecidableEq

/-- `replay` (server.go:205-209): `for ev := range repo.Replay(...) { sub.out <- ev }`.
The repository's finite replay sequence is the list `evs`. -/
def replayRun : List Nat → OutChan → ReplayOutcome
  | [], q => .finished q
  | ev :: evs, q =>
    match chanSend q ev with
    | .sent q' => replayRun evs q'
    | .blocked => .blockedAt ev
    | .panicked => .panicked

example : chanSend { buf := [], cap := 1, closed := false } 5
    = .sent { buf := [5], cap := 1, closed := false } := by decide

example : chanSend { buf := [5], cap := 1, closed := false } 6 = .blocked := by decide

example : chanSend { buf := [], cap := 1, closed := true } 6 = .panicked := by decide

example : publishAttempt { buf := [5], cap := 1, closed := false } 6 = .evict := by decide

example : replayRun [1, 2] { buf := [], cap := 2, closed := false }
    = .finished { buf := [1, 2], cap := 2, closed := false } := by decide

/-- A subscription as the coordinator sees it (server.go:11-15).  Go compares
subscriptions by pointer identity; `sid` models that identity.  Membership of
the subscription in `subs[channel]` (the coordinator's map built in `run`,
server.go:212) is modelled by the `inSet` flag: the Go set `subs[c]` is
recovered as the entries with `channel = c` and `inSet = true`.  The queue
object outlives removal from the set (the streaming handler still holds it),
so evicted entries keep their `out` field. -/
structure subscription where
  sid : Nat
  channel : String
  out : OutChan
  inSet : Bool
deriving Repr, DecidableEq

/-- Capacity of the `unregister` mailbox:
`unregister: make(chan *subscription, 2)` (server.go:46). -/
def unregisterCap : Nat := 2

/-- The coordinator's state: all subscriptions ever submitted (with their
set-membership flags), the buffered `unregister` mailbox (holding sids of
pending unsubscribe requests), and whether `run` has returned. -/
structure ServerState where
  entries : List subscription
  mailbox : List Nat
  stopped : Bool
deriving Repr, DecidableEq

/-- Intermediate result of fanning one publish out over the subscriber list:
either the updated entries and mailbox, or the coordinator panicked (send on
a closed queue selected in the `select`), or it deadlocked
(`srv.unregister <- s` with a full mailbox blocks forever, since `run` itself
is the only receiver). -/
inductive FanoutResult where
  | ok (entries : List subscription) (mailbox : List Nat)
  | panicked
  | deadlocked
deriving Repr, DecidableEq

/-- The inner loop of `run`'s publish case (server.go:224-232): for each
current subscriber of channel `c`, try a non-blocking send; on a full queue,
send the subscription to the `unregister` mailbox, then close its queue. -/
def fanout (c : String) (ev : Nat) : List subscription → List Nat → FanoutResult
  | [], mb => .ok [] mb
  | s :: rest, mb =>
    if s.inSet && s.channel == c then
      match publishAttempt s.out ev with
      | .panicked => .panicked
      | .delivered q' =>
        match fanout c ev rest mb with
        | .ok rest' mb' => .ok ({ s with out := q' } :: rest') mb'
        | r => r
      | .evict =>
        if mb.length < unregisterCap then
          match fanout c ev rest (mb ++ [s.sid]) with
          | .ok rest' mb' =>
            .ok ({ s with out := { s.out with closed := true } } :: rest') mb'
          | r => r
        else .deadlocked
    else
      match fanout c ev rest mb with
      | .ok rest' mb' => .ok (s :: rest') mb'
      | r => r

/-- The outer loop of `run`'s publish case (server.go:223): fan the event out
to each named channel in turn. -/
def publishChannels (ev : Nat) : List String → List subscription → List Nat → FanoutResult
  | [], es, mb => .ok es mb
  | c :: cs, es, mb =>
    match fanout c ev es mb with
    | .ok es' mb' => publishChannels ev cs es' mb'
    | r => r

/-- `run`'s unregister case (server.go:220-221): `delete(subs[sub.channel], sub)`.
Deleting an absent subscription (including from a channel with no set at all)
is a no-op, exactly as `delete` on a Go map (even a nil one). -/
def applyUnregister (st : ServerState) (sid : Nat) : ServerState :=
  { st with
    entries := st.entries.map fun s =>
      if s.sid = sid then { s with inSet := false } else s }

/-- The coordinator receiving from its `unregister` mailbox: pop the oldest
pending request and delete that subscription from its channel's set.  (With an
empty mailbox the receive is not ready and `select` would not choose it; we
model that case as a no-op.) -/
def drainUnregister (st : ServerState) : ServerState :=
  match st.mailbox with
  | [] => st
  | sid :: rest => { applyUnregister st sid with mailbox := rest }

/-- Commands offered to the coordinator's `select` (server.go:214-254), in the
serialized order in which the coordinator happens to accept them.  Different
orders model Go's nondeterministic choice among ready `select` cases. -/
inductive Cmd where
  | subscribe (sid : Nat) (channel : String) (cap : Nat)
  | publish (channels : List String) (ev : Nat)
  | drainUnreg
  | quit
deriving Repr, DecidableEq

/-- Result of the coordinator processing commands: the resulting state, a
panic inside `run`, a deadlock of `run` on its own mailbox, or a sender blocked
forever because `run` has already returned (nobody receives its channels). -/
inductive RunResult where
  | ok (s : ServerState)
  | panicked
  | deadlocked
  | senderBlocked
deriving Repr, DecidableEq

/-- `run`'s quit case (server.go:247-253): close every subscriber queue in the
`subs` map and return.  Go's `close` panics on an already-closed channel, so an
evicted-but-still-registered subscription (queue closed, unregister pending)
makes this panic. -/
def applyQuit (st : ServerState) : RunResult :=
  if st.entries.any fun s => s.inSet && s.out.closed then .panicked
  else
    .ok { st with
      entries := st.entries.map fun s =>
        if s.inSet then { s with out := { s.out with closed := true } } else s,
      stopped := true }

/-- One iteration of `run`'s `select` (server.go:214-254), processing the
command the scheduler handed it. -/
def step (st : ServerState) : Cmd → RunResult
  | .subscribe sid c cap =>
    if st.stopped then .senderBlocked
    else .ok { st with
      entries := st.entries ++ [⟨sid, c, ⟨[], cap, false⟩, true⟩] }
  | .publish cs ev =>
    if st.stopped then .senderBlocked
    else
      match publishChannels ev cs st.entries st.mailbox with
      | .ok es mb => .ok { st with entries := es, mailbox := mb }
      | .panicked => .panicked
      | .deadlocked => .deadlocked
  | .drainUnreg =>
    if st.stopped then .senderBlocked else .ok (drainUnregister st)
  | .quit =>
    if st.stopped then .senderBlocked else applyQuit st

/-- Run the coordinator over a serialized command trace. -/
def runCmds (st : ServerState) : List Cmd → RunResult
  | [] => .ok st
  | c :: cs =>
    match step st c with
    | .ok st' => runCmds st' cs
    | r => r

/-- Initial coordinator state: no subscriptions, empty mailbox, running. -/
def initState : ServerState := ⟨[], [], false⟩

example : runCmds initState [.subscribe 1 "ch" 1, .publish ["ch"] 10]
    = .ok ⟨[⟨1, "ch", ⟨[10], 1, false⟩, true⟩], [], false⟩ := by decide

example : runCmds initState [.subscribe 1 "ch" 1, .publish ["ch"] 10, .publish ["ch"] 11]
    = .ok ⟨[⟨1, "ch", ⟨[10], 1, true⟩, true⟩], [1], false⟩ := by decide

example : runCmds initState
      [.subscribe 1 "ch" 1, .publish ["ch"] 10, .publish ["ch"] 11, .publish ["ch"] 12]
    = .panicked := by decide

example : runCmds initState
      [.subscribe 1 "ch" 1, .publish ["ch"] 10, .publish ["ch"] 11, .drainUnreg,
       .publish ["ch"] 12]
    = .ok ⟨[⟨1, "ch", ⟨[10], 1, true⟩, false⟩], [], false⟩ := by decide

example : runCmds initState [.subscribe 1 "ch" 1, .publish ["ch"] 10, .publish ["ch"] 11, .quit]
    = .panicked := by decide

example : runCmds initState [.subscribe 1 "ch" 1, .quit, .quit] = .senderBlocked := by decide

example : runCmds initState
      [.subscribe 1 "ch" 1, .subscribe 2 "ch" 1, .subscribe 3 "ch" 1,
       .publish ["ch"] 10, .publish ["ch"] 11]
    = .deadlocked := by decide

/-- The capabilities of an `http.ResponseWriter` that matter to the handlers:
whether the dynamic type satisfies `http.Flusher` and `http.CloseNotifier`. -/
structure ResponseWriter where
  flusher : Bool
  closeNotifier : Bool
deriving Repr, DecidableEq

/-- How far a connection handler gets before its streaming loop. -/
inductive HandlerOutcome where
  | panicked
  | streaming
  | finished
deriving Repr, DecidableEq

/-- The pre-loop phase of the handler from `HandlerWithInitialEvent`
(server.go:118-161): after headers and the subscription handoff it runs the
unchecked type assertions `w.(http.Flusher)` (server.go:138) and
`w.(http.CloseNotifier)` (server.go:139); either assertion failing panics,
otherwise the streaming loop is entered. -/
def handlerWithInitialEventServe (w : ResponseWriter) : HandlerOutcome :=
  if !w.flusher then .panicked
  else if !w.closeNotifier then .panicked
  else .streaming

/-- `Handler` (server.go:61-63) delegates to `HandlerWithInitialEvent` with a
nil initial-event producer. -/
def handlerServe (w : ResponseWriter) : HandlerOutcome :=
  handlerWithInitialEventServe w

/-- The handler from `ProxyingHandler` (server.go:73-113): after the proxied
exchange, if the transport saw no `Grip-Channel` header it returns at once
(server.go:78-80); only otherwise does it run the unchecked assertions
`w.(http.Flusher)` and `w.(http.CloseNotifier)` (server.go:88-89) and enter
the streaming loop. -/
def proxyingHandlerServe (gripChannel : String) (w : ResponseWriter) : HandlerOutcome :=
  if gripChannel = "" then .finished
  else if !w.flusher then .panicked
  else if !w.closeNotifier then .panicked
  else .streaming

example : proxyingHandlerServe "" ⟨false, false⟩ = .finished := by decide

example : handlerServe ⟨true, false⟩ = .panicked := by decide

/-- A data event (`publication` in the repository's event model): optional
`id` and `event` fields (empty string means omitted) and a mandatory `data`
payload that may be empty or contain embedded newlines. -/
structure publication where
  id : String
  event : String
  data : String
deriving Repr, DecidableEq

/-- A comment / heartbeat frame (`comment` in the repository's event model). -/
structure comment where
  value : String
deriving Repr, DecidableEq

/-- Modelled from the spec: the encoder splits the data payload on newline
characters into segments (the encoder source itself is not under src/, only
its tests).  Splitting the empty payload yields one empty segment; a payload
ending in a newline yields an explicit trailing empty segment. -/
def splitOnNL : List Char → List (List Char)
  | [] => [[]]
  | c :: cs =>
    if c = '\n' then [] :: splitOnNL cs
    else
      match splitOnNL cs with
      | [] => [[c]]
      | seg :: segs => (c :: seg) :: segs

/-- Modelled from the spec: the `data:` lines of a publication record — one
`data: <segment>\n` line per newline-separated segment of the payload, in
order. -/
def dataLines (data : String) : String :=
  String.join ((splitOnNL data.data).map fun seg => "data: " ++ String.mk seg ++ "\n")

/-- Modelled from the spec: `Encode` on a publication (encoder source not
under src/; behaviour fixed by §4.2 of the spec and the tests in
src/unnamed/part_000).  `id: <id>\n` iff `id` is non-empty, `event: <event>\n`
iff `event` is non-empty, then the `data:` lines, then one terminating blank
line. -/
def encodePub (p : publication) : String :=
  (if p.id = "" then "" else "id: " ++ p.id ++ "\n")
    ++ (if p.event = "" then "" else "event: " ++ p.event ++ "\n")
    ++ dataLines p.data ++ "\n"

/-- Modelled from the spec: `Encode` on a comment — the single line
`:<value>\n` with no trailing blank line. -/
def encodeComment (c : comment) : String :=
  ":" ++ c.value ++ "\n"

example : encodePub ⟨"", "", "aaa"⟩ = "data: aaa\n\n" := by decide

example : encodePub ⟨"aaa", "bbb", "ccc"⟩ = "id: aaa\nevent: bbb\ndata: ccc\n\n" := by decide

example : encodePub ⟨"", "", "first\nsecond"⟩ = "data: first\ndata: second\n\n" := by decide

example : encodePub ⟨"", "", ""⟩ = "data: \n\n" := by decide

example : encodeComment ⟨"hello"⟩ = ":hello\n" := by decide

/-- A history of write-then-flush rounds against a streaming compressor with
state type `σ`: `write` feeds bytes in, `flush` forces pending compressed data
out.  This is the reference shape of the gzip contract: after any sequence of
rounds the bytes emitted so far decompress to the concatenation of all bytes
written so far. -/
def runRounds {σ : Type} (write : σ → String → σ) (flush : σ → σ) : σ → List String → σ
  | s, [] => s
  | s, r :: rs => runRounds write flush (flush (write s r)) rs

/-- Modelled from the spec: `Encode` with compression enabled (encoder source
not under src/) writes the event's uncompressed encoding through the
streaming compressor and forces a flush after every `Encode` call, so the
stream is decodable incrementally after each event. -/
def encodeGzipAll {σ : Type} (write : σ → String → σ) (flush : σ → σ) : σ → List publication → σ
  | s, [] => s
  | s, p :: ps => encodeGzipAll write flush (flush (write s (encodePub p))) ps

theorem encodeGzipAll_eq_runRounds {σ : Type} (write : σ → String → σ) (flush : σ → σ)
    (ps : List publication) : ∀ s : σ,
    encodeGzipAll write flush s ps = runRounds write flush s (ps.map encodePub) := by
  induction ps with
  | nil => intro s; rfl
  | cons p ps ih => intro s; simpa [encodeGzipAll, runRounds] using ih (flush (write s (encodePub p)))

theorem String.join_cons' (r : String) (rs : List String) :
    String.join (r :: rs) = r ++ String.join rs := by
  apply String.ext
  simp [String.join_eq]

theorem runRounds_append_id (rs : List String) : ∀ s : String,
    runRounds (fun a b => a ++ b) (fun a => a) s rs = s ++ String.join rs := by
  induction rs with
  | nil => intro s; apply String.ext; simp [runRounds, String.join_eq]
  | cons r rs ih =>
    intro s
    rw [runRounds, ih, String.join_cons']
    apply String.ext
    simp [String.data_append]

theorem runRounds_append_id_nil (rs : List String) :
    runRounds (fun a b => a ++ b) (fun a => a) "" rs = String.join rs := by
  rw [runRounds_append_id]
  apply String.ext
  simp [String.data_append]

theorem splitOnNL_ne_nil (l : List Char) : splitOnNL l ≠ [] := by
  induction l with
  | nil => simp [splitOnNL]
  | cons c cs ih =>
    simp only [splitOnNL]
    by_cases hc : c = '\n'
    · simp [hc]
    · simp only [if_neg hc]
      cases h : splitOnNL cs <;> simp

theorem splitOnNL_trailing (l : List Char) :
    splitOnNL (l ++ ['\n']) = splitOnNL l ++ [[]] := by
  induction l with
  | nil => rfl
  | cons c cs ih =>
    by_cases hc : c = '\n'
    · simp only [List.cons_append, splitOnNL, if_pos hc, List.append_eq, ih]
    · cases h : splitOnNL cs with
      | nil => exact absurd h (splitOnNL_ne_nil cs)
      | cons seg segs =>
        simp only [List.cons_append, splitOnNL, if_neg hc, List.append_eq, ih, h,
          List.cons_append]

/-- C1: for a subscription with a capacity-1 queue that is never drained, the
first `Publish` to its channel buffers the event; the second `Publish` evicts
the subscription — it does not block the publisher and does not merely drop
the one message: the queue is closed at once and a self-issued unsubscribe
request is raised, whose processing removes the subscription from the
channel's subscriber set; and a third `Publish` to the same channel, with the
subscriber now absent, completes normally, with no error and no panic. -/
theorem c1_overflow_eviction_policy :
    runCmds initState [.subscribe 1 "ch" 1, .publish ["ch"] 10]
        = .ok ⟨[⟨1, "ch", ⟨[10], 1, false⟩, true⟩], [], false⟩
      ∧ runCmds initState [.subscribe 1 "ch" 1, .publish ["ch"] 10, .publish ["ch"] 11]
        = .ok ⟨[⟨1, "ch", ⟨[10], 1, true⟩, true⟩], [1], false⟩
      ∧ runCmds initState
          [.subscribe 1 "ch" 1, .publish ["ch"] 10, .publish ["ch"] 11, .drainUnreg]
        = .ok ⟨[⟨1, "ch", ⟨[10], 1, true⟩, false⟩], [], false⟩
      ∧ runCmds initState
          [.subscribe 1 "ch" 1, .publish ["ch"] 10, .publish ["ch"] 11, .drainUnreg,
           .publish ["ch"] 12]
        = .ok ⟨[⟨1, "ch", ⟨[10], 1, true⟩, false⟩], [], false⟩ := by
  refine ⟨by decide, by decide, by decide, by decide⟩

/-- C2 counterexample: the claim says a replay write into a full queue evicts
the subscription and never blocks; in the code `replay` does a plain blocking
channel send (server.go:207), so on a full open capacity-1 queue the replay
write blocks, while the live-publish path (server.go:225-231) on the very same
queue evicts. -/
theorem c2_full_queue_replay_blocks :
    chanSend { buf := [7], cap := 1, closed := false } 8 = .blocked
      ∧ replayRun [8] { buf := [7], cap := 1, closed := false } = .blockedAt 8
      ∧ publishAttempt { buf := [7], cap := 1, closed := false } 8 = .evict := by
  refine ⟨by decide, by decide, by decide⟩

/-- C2 amended: a replay write into the subscription's queue is a plain
blocking enqueue, not the live-publish discipline: on a full open queue the
replay task blocks (indefinitely, if the client never drains) instead of
evicting the subscription, whereas a live publish to the same queue evicts. -/
theorem c2_amended_replay_write_blocks (q : OutChan) (ev : Nat)
    (hopen : q.closed = false) (hfull : q.cap ≤ q.buf.length) :
    chanSend q ev = .blocked
      ∧ replayRun [ev] q = .blockedAt ev
      ∧ publishAttempt q ev = .evict := by
  have hnf : ¬ q.buf.length < q.cap := Nat.not_lt.mpr hfull
  refine ⟨?_, ?_, ?_⟩
  · simp [chanSend, hopen, hnf]
  · simp [replayRun, chanSend, hopen, hnf]
  · simp [publishAttempt, hopen, hnf]

theorem c2_amended_witness :
    chanSend { buf := [3, 4], cap := 2, closed := false } 9 = .blocked
      ∧ replayRun [9] { buf := [3, 4], cap := 2, closed := false } = .blockedAt 9
      ∧ publishAttempt { buf := [3, 4], cap := 2, closed := false } 9 = .evict :=
  c2_amended_replay_write_blocks { buf := [3, 4], cap := 2, closed := false } 9
    rfl (by decide)

/-- C3: the claim says a write into an already-closed queue must not panic; in
the code both the replay write (a Go send on a closed channel, server.go:207)
and the publish-path `select` (whose send case on a closed channel is ready
and panics when chosen, server.go:225-231) panic.  The final conjunct is the
whole failing run: with the eviction's unregister request still pending, a
further publish reaches the closed queue and panics the coordinator. -/
theorem c3_closed_queue_write_panics :
    chanSend { buf := [], cap := 1, closed := true } 5 = .panicked
      ∧ replayRun [5] { buf := [], cap := 1, closed := true } = .panicked
      ∧ publishAttempt { buf := [], cap := 1, closed := true } 5 = .panicked
      ∧ runCmds initState
          [.subscribe 1 "ch" 1, .publish ["ch"] 10, .publish ["ch"] 11, .publish ["ch"] 12]
        = .panicked := by
  refine ⟨by decide, by decide, by decide, by decide⟩

/-- C4 counterexample: the claim says the coordinator can enqueue however many
self-issued eviction requests a single `Publish` raises without blocking; the
`unregister` mailbox has capacity 2 (server.go:46) and `run` is its only
receiver, so a single `Publish` that evicts three subscribers blocks forever
on the third `srv.unregister <- s` — the coordinator deadlocks. -/
theorem c4_three_evictions_deadlock :
    runCmds initState
        [.subscribe 1 "ch" 1, .subscribe 2 "ch" 1, .subscribe 3 "ch" 1,
         .publish ["ch"] 10, .publish ["ch"] 11]
      = .deadlocked := by decide

/-- A subscriber of channel "ch" whose capacity-1 queue is already full. -/
def fullSub (sid : Nat) : subscription :=
  ⟨sid, "ch", ⟨[0], 1, false⟩, true⟩

/-- C4 amended: the coordinator's self-eviction mailbox has capacity 2, so
during a single `Publish` it can enqueue self-issued unsubscribe requests
without blocking only while the mailbox has spare room: with an empty mailbox
a `Publish` evicting two subscribers completes and both requests are processed
on later iterations, but with one slot already occupied two evictions
deadlock, and a `Publish` evicting three (or more, whatever follows the first
three subscribers) deadlocks the coordinator. -/
theorem c4_amended_mailbox_slack_two :
    runCmds ⟨[fullSub 1, fullSub 2], [], false⟩ [.publish ["ch"] 9]
        = .ok ⟨[⟨1, "ch", ⟨[0], 1, true⟩, true⟩, ⟨2, "ch", ⟨[0], 1, true⟩, true⟩],
               [1, 2], false⟩
      ∧ runCmds ⟨[fullSub 1, fullSub 2], [], false⟩
          [.publish ["ch"] 9, .drainUnreg, .drainUnreg]
        = .ok ⟨[⟨1, "ch", ⟨[0], 1, true⟩, false⟩, ⟨2, "ch", ⟨[0], 1, true⟩, false⟩],
               [], false⟩
      ∧ runCmds ⟨[fullSub 1, fullSub 2], [7], false⟩ [.publish ["ch"] 9] = .deadlocked
      ∧ (∀ rest : List subscription,
          runCmds ⟨fullSub 1 :: fullSub 2 :: fullSub 3 :: rest, [], false⟩
            [.publish ["ch"] 9] = .deadlocked) := by
  refine ⟨by decide, by decide, by decide, fun rest => rfl⟩

/-- C5: the claim says shutdown closes every subscriber queue exactly once,
never closing an already-closed one, and that repeated shutdown is safe; in
the code `run`'s quit case (server.go:247-253) calls `close` on every queue
still in the subscriber map, so a queue closed earlier by a publish-time
eviction whose unregister request is still pending is closed twice — a Go
panic.  On the clean path the queue is closed (handlers observe end of
stream), but a second `Close` blocks forever, since `run` has returned and
nothing receives `srv.quit`. -/
theorem c5_shutdown_double_close :
    runCmds initState [.subscribe 1 "ch" 1, .publish ["ch"] 10, .publish ["ch"] 11, .quit]
        = .panicked
      ∧ runCmds initState [.subscribe 1 "ch" 1, .quit]
        = .ok ⟨[⟨1, "ch", ⟨[], 1, true⟩, true⟩], [], true⟩
      ∧ runCmds initState [.subscribe 1 "ch" 1, .quit, .quit] = .senderBlocked := by
  refine ⟨by decide, by decide, by decide⟩

/-- C6: `Encode` on a publication splits the data payload on newline
characters and emits one `data: <segment>\n` line per segment in order —
including an explicit trailing empty segment when the payload ends with a
newline (so "a\n" yields `data: a` then `data: `) — terminates the record
with exactly one blank line, and still emits exactly one `data: \n` line for
an empty payload (full output "data: \n\n").  The concrete conjuncts are the
test vectors of src/unnamed/part_000; the final conjunct is the general
trailing-newline property of the splitter. -/
theorem c6_data_line_splitting :
    encodePub ⟨"", "", "aaa"⟩ = "data: aaa\n\n"
      ∧ encodePub ⟨"", "aaa", "bbb"⟩ = "event: aaa\ndata: bbb\n\n"
      ∧ encodePub ⟨"aaa", "", "bbb"⟩ = "id: aaa\ndata: bbb\n\n"
      ∧ encodePub ⟨"aaa", "bbb", "ccc"⟩ = "id: aaa\nevent: bbb\ndata: ccc\n\n"
      ∧ encodePub ⟨"", "", ""⟩ = "data: \n\n"
      ∧ encodePub ⟨"", "", "\nfirst"⟩ = "data: \ndata: first\n\n"
      ∧ encodePub ⟨"", "", "first\nsecond"⟩ = "data: first\ndata: second\n\n"
      ∧ encodePub ⟨"", "", "first\nsecond\nthird"⟩
        = "data: first\ndata: second\ndata: third\n\n"
      ∧ encodePub ⟨"", "", "a\n"⟩ = "data: a\ndata: \n\n"
      ∧ encodePub ⟨"", "", "ends with newline\n"⟩ = "data: ends with newline\ndata: \n\n"
      ∧ encodePub ⟨"", "", "first\nends with newline\n"⟩
        = "data: first\ndata: ends with newline\ndata: \n\n"
      ∧ (∀ l : List Char, splitOnNL (l ++ ['\n']) = splitOnNL l ++ [[]]) := by
  refine ⟨by decide, by decide, by decide, by decide, by decide, by decide, by decide,
    by decide, by decide, by decide, by decide, splitOnNL_trailing⟩

/-- C7: `Encode` on a comment with value v emits exactly the single line
`:<v>\n` and no trailing blank line; a comment "hello" encodes to exactly
":hello\n" (which contains a single newline, so no blank-line terminator
follows it). -/
theorem c7_comment_single_line :
    encodeComment ⟨"hello"⟩ = ":hello\n"
      ∧ (∀ c : comment, encodeComment c = ":" ++ c.value ++ "\n")
      ∧ (encodeComment ⟨"hello"⟩).data.count '\n' = 1 := by
  refine ⟨by decide, fun c => rfl, by decide⟩

/-- C8: for any streaming compressor satisfying the gzip flush contract —
after any sequence of write-then-flush rounds from the initial state, the
bytes emitted so far decompress to exactly the bytes written so far — the
compressing encoder (which writes each event's uncompressed encoding and
forces a flush on every `Encode` call) produces a stream that decompresses,
after every event and not only at stream end, to exactly the concatenated
uncompressed encodings of the events so far. -/
theorem c8_gzip_incremental_roundtrip {σ : Type} (write : σ → String → σ)
    (flush : σ → σ) (sink : σ → String) (decomp : String → String) (s0 : σ)
    (hgzip : ∀ rs : List String, decomp (sink (runRounds write flush s0 rs)) = String.join rs)
    (ps : List publication) (k : Nat) :
    decomp (sink (encodeGzipAll write flush s0 (ps.take k)))
      = String.join ((ps.take k).map encodePub) := by
  rw [encodeGzipAll_eq_runRounds]
  exact hgzip ((ps.take k).map encodePub)

theorem c8_gzip_witness :
    encodeGzipAll (fun a b => a ++ b) (fun a => a) ""
        (([⟨"", "aaa", "bbb"⟩, ⟨"", "", "x"⟩] : List publication).take 1)
      = String.join ((([⟨"", "aaa", "bbb"⟩, ⟨"", "", "x"⟩] : List publication).take 1).map
          encodePub)
    ∧ encodeGzipAll (fun a b => a ++ b) (fun a => a) ""
        (([⟨"", "aaa", "bbb"⟩, ⟨"", "", "x"⟩] : List publication).take 2)
      = String.join ((([⟨"", "aaa", "bbb"⟩, ⟨"", "", "x"⟩] : List publication).take 2).map
          encodePub) :=
  ⟨c8_gzip_incremental_roundtrip (fun a b => a ++ b) (fun a => a) (fun s => s) (fun s => s)
      "" runRounds_append_id_nil [⟨"", "aaa", "bbb"⟩, ⟨"", "", "x"⟩] 1,
   c8_gzip_incremental_roundtrip (fun a b => a ++ b) (fun a => a) (fun s => s) (fun s => s)
      "" runRounds_append_id_nil [⟨"", "aaa", "bbb"⟩, ⟨"", "", "x"⟩] 2⟩

/-- C9: `Unsubscribe` removes the given subscription from its channel's set
and is idempotent: removing an absent subscription (including on a channel
with no subscriber set at all) leaves the state unchanged, applying it twice
equals applying it once, and processing an unregister command never errors or
panics (it always yields an ordinary next state). -/
theorem c9_unregister_idempotent :
    (∀ (st : ServerState) (sid : Nat),
        applyUnregister (applyUnregister st sid) sid = applyUnregister st sid)
      ∧ (∀ (st : ServerState) (sid : Nat),
          (∀ s ∈ st.entries, s.sid ≠ sid) → applyUnregister st sid = st)
      ∧ (∀ st : ServerState, st.stopped = false →
          ∃ st' : ServerState, runCmds st [.drainUnreg] = .ok st') := by
  refine ⟨?_, ?_, ?_⟩
  · intro st sid
    unfold applyUnregister
    simp only [List.map_map]
    congr 1
    apply List.map_congr_left
    intro s _
    by_cases h : s.sid = sid <;> simp [h]
  · intro st sid habs
    unfold applyUnregister
    have : st.entries.map
        (fun s => if s.sid = sid then { s with inSet := false } else s) = st.entries := by
      conv_rhs => rw [← List.map_id st.entries]
      apply List.map_congr_left
      intro s hs
      simp [habs s hs]
    rw [this]
  · intro st hrun
    exact ⟨drainUnregister st, by simp [runCmds, step, hrun]⟩

theorem c9_witness :
    applyUnregister (applyUnregister ⟨[⟨1, "ch", ⟨[], 1, false⟩, true⟩], [], false⟩ 1) 1
        = applyUnregister ⟨[⟨1, "ch", ⟨[], 1, false⟩, true⟩], [], false⟩ 1
      ∧ applyUnregister ⟨[⟨1, "ch", ⟨[], 1, false⟩, true⟩], [], false⟩ 5
        = ⟨[⟨1, "ch", ⟨[], 1, false⟩, true⟩], [], false⟩
      ∧ ∃ st' : ServerState,
          runCmds ⟨[⟨1, "ch", ⟨[], 1, false⟩, true⟩], [9], false⟩ [.drainUnreg] = .ok st' :=
  ⟨c9_unregister_idempotent.1 ⟨[⟨1, "ch", ⟨[], 1, false⟩, true⟩], [], false⟩ 1,
   c9_unregister_idempotent.2.1 ⟨[⟨1, "ch", ⟨[], 1, false⟩, true⟩], [], false⟩ 5 (by decide),
   c9_unregister_idempotent.2.2 ⟨[⟨1, "ch", ⟨[], 1, false⟩, true⟩], [9], false⟩ rfl⟩

/-- C10 counterexample: the claim says that for any transport lacking the two
capabilities, serving a request panics; but the handler from `ProxyingHandler`
returns normally — asserting nothing — whenever the proxied response carries
no Grip-Channel header (server.go:78-80), even on a transport with neither
capability. -/
theorem c10_proxy_passthrough_no_panic :
    proxyingHandlerServe "" ⟨false, false⟩ = .finished
      ∧ proxyingHandlerServe "" ⟨false, false⟩ ≠ .panicked := by
  refine ⟨by decide, by decide⟩

/-- C10 amended: every handler runs the unchecked `http.Flusher` and
`http.CloseNotifier` type assertions before entering its streaming loop, so on
a transport lacking either capability, any request served by `Handler` or
`HandlerWithInitialEvent` panics, and a request served by `ProxyingHandler`
panics exactly when the proxied response names a Grip-Channel — the
pass-through case returns normally; with both capabilities present the
streaming loop is entered. -/
theorem c10_amended_capability_assertions (w : ResponseWriter)
    (h : w.flusher = false ∨ w.closeNotifier = false) :
    handlerWithInitialEventServe w = .panicked
      ∧ handlerServe w = .panicked
      ∧ (∀ ch : String, ch ≠ "" → proxyingHandlerServe ch w = .panicked)
      ∧ proxyingHandlerServe "" w = .finished
      ∧ handlerWithInitialEventServe ⟨true, true⟩ = .streaming := by
  obtain ⟨f, cn⟩ := w
  rcases h with h | h <;> subst h
  · refine ⟨rfl, rfl, ?_, rfl, rfl⟩
    intro ch hch
    simp [proxyingHandlerServe, hch]
  · cases f
    · refine ⟨rfl, rfl, ?_, rfl, rfl⟩
      intro ch hch
      simp [proxyingHandlerServe, hch]
    · refine ⟨rfl, rfl, ?_, rfl, rfl⟩
      intro ch hch
      simp [proxyingHandlerServe, hch]

theorem c10_amended_witness :
    handlerWithInitialEventServe ⟨false, true⟩ = .panicked
      ∧ proxyingHandlerServe "chan" ⟨false, true⟩ = .panicked :=
  ⟨(c10_amended_capability_assertions ⟨false, true⟩ (Or.inl rfl)).1,
   (c10_amended_capability_assertions ⟨false, true⟩ (Or.inl rfl)).2.2.1 "chan" (by decide)⟩
